import Mathlib

/-!
Verification development for the VaultMonitor monitoring engine.

Shallow embedding of the current TypeScript engine:
  - src/src/types/domain.ts          (FactValue, Facts, Alert, ProbeState)
  - src/src/utils/alert-helpers.ts   (alert id derivation, SHA-256 prefix hash)
  - src/src/rules/threshold.ts       (ThresholdRule.evaluate)
  - src/rules/change.ts              (ChangeRule.evaluate)
  - src/src/core/base-rule.ts        (rule-state slot helpers)
  - src/src/engine/alert-manager.ts  (mute -> dedup -> cooldown -> fan-out -> record)
  - src/src/engine/state-manager.ts  (sent_alerts / cooldowns tables)
  - src/utils/circuit-breaker.ts     (CircuitBreaker)
  - src/engine/runner.ts             (ProbeRunner: single-flight lock, watchdog,
                                      enable/disable, run completion)

Modelling conventions:
  - JS values appearing in fact bags are embedded as the tagged variant FactValue
    covering null, boolean, integer and bigint numbers, and strings.  IEEE-754
    fractional numbers are not represented as fact values (the claims under
    study only exercise integers and strings); numeric coercion results and
    thresholds are exact rationals.
  - A missing object property (JS undefined) is Option.none.
  - Date.now() is an explicit integer parameter.
  - Fallible paths return Option; mutation is explicit state passing.
-/

/-- JS fact values (src/src/types/domain.ts: FactValue = number | string |
boolean | bigint | null).  Integer numbers only; see the header note. -/
inductive FactValue where
  | vNull : FactValue
  | vBool : Bool → FactValue
  | vInt : Int → FactValue
  | vBigInt : Int → FactValue
  | vStr : String → FactValue
  deriving DecidableEq

/-- JS String(x) for a possibly-undefined fact value (none = undefined).
String(5) = "5", String(5n) = "5", String(null) = "null". -/
def jsToString : Option FactValue → String
  | none => "undefined"
  | some FactValue.vNull => "null"
  | some (FactValue.vBool true) => "true"
  | some (FactValue.vBool false) => "false"
  | some (FactValue.vInt n) => toString n
  | some (FactValue.vBigInt n) => toString n
  | some (FactValue.vStr s) => s

/-- JS whitespace skipped by parseFloat / Number (common subset). -/
def isJsSpace (c : Char) : Bool :=
  c == ' ' || c == '\t' || c == '\n' || c == '\r'

/-- Decimal digit run value. -/
def digitsToNat (cs : List Char) : Nat :=
  cs.foldl (fun a c => a * 10 + (c.toNat - 48)) 0

/-- JS parseFloat: skips leading whitespace, reads an optional sign and the
longest numeric prefix digits[.digits]; NaN (none) when no digit is found.
Exponent forms are outside the modelled input domain. -/
def jsParseFloat (s : String) : Option Rat :=
  let cs := s.data.dropWhile isJsSpace
  let signed : Bool × List Char :=
    match cs with
    | '-' :: rest => (true, rest)
    | '+' :: rest => (false, rest)
    | _ => (false, cs)
  let intPart := signed.2.takeWhile Char.isDigit
  let rest := signed.2.dropWhile Char.isDigit
  let fracPart : List Char :=
    match rest with
    | '.' :: r => r.takeWhile Char.isDigit
    | _ => []
  if intPart.isEmpty && fracPart.isEmpty then none
  else
    let v : Rat := (digitsToNat intPart : Rat) +
      (digitsToNat fracPart : Rat) / ((10 : Rat) ^ fracPart.length)
    some (if signed.1 then -v else v)

/-- JS Number(x) for a string: trimmed-empty is 0, otherwise the WHOLE string
must be numeric (sign, digits, optional fraction); NaN (none) otherwise. -/
def jsNumberOfString (s : String) : Option Rat :=
  let cs := (s.data.dropWhile isJsSpace).reverse.dropWhile isJsSpace |>.reverse
  if cs.isEmpty then some 0
  else
    let signed : Bool × List Char :=
      match cs with
      | '-' :: rest => (true, rest)
      | '+' :: rest => (false, rest)
      | _ => (false, cs)
    let intPart := signed.2.takeWhile Char.isDigit
    let rest := signed.2.dropWhile Char.isDigit
    let fracPart : List Char :=
      match rest with
      | '.' :: r => r.takeWhile Char.isDigit
      | _ => []
    let consumed := intPart.length + (if rest.isEmpty then 0 else 1 + fracPart.length)
    if intPart.isEmpty && fracPart.isEmpty then none
    else if consumed ≠ signed.2.length then none
    else
      let v : Rat := (digitsToNat intPart : Rat) +
        (digitsToNat fracPart : Rat) / ((10 : Rat) ^ fracPart.length)
      some (if signed.1 then -v else v)

/-- JS numeric coercion of a fact value as used by the relational operators
(Number(x)); none models NaN. -/
def jsToNumber : FactValue → Option Rat
  | FactValue.vNull => some 0
  | FactValue.vBool true => some 1
  | FactValue.vBool false => some 0
  | FactValue.vInt n => some (n : Rat)
  | FactValue.vBigInt n => some (n : Rat)
  | FactValue.vStr s => jsNumberOfString s

/-! ## SHA-256 (crypto.createHash('sha256'), as used by alert-helpers.ts)

Standard FIPS 180-4 SHA-256 over the UTF-8 bytes of the input string
(inputs in this development are ASCII).  32-bit words are Nat values kept
below 2^32 by explicit reduction. -/

/-- Reduce to a 32-bit word. -/
def w32 (n : Nat) : Nat := n % 4294967296

/-- Rotate a 32-bit word right by n bits. -/
def rotr32 (x n : Nat) : Nat := w32 ((x >>> n) ||| (x <<< (32 - n)))

/-- Bitwise complement of a 32-bit word. -/
def not32 (x : Nat) : Nat := x ^^^ 4294967295

/-- SHA-256 round constants. -/
def sha256K : List Nat :=
  [1116352408, 1899447441, 3049323471, 3921009573, 961987163,
   1508970993, 2453635748, 2870763221, 3624381080, 310598401,
   607225278, 1426881987, 1925078388, 2162078206, 2614888103,
   3248222580, 3835390401, 4022224774, 264347078, 604807628,
   770255983, 1249150122, 1555081692, 1996064986, 2554220882,
   2821834349, 2952996808, 3210313671, 3336571891, 3584528711,
   113926993, 338241895, 666307205, 773529912, 1294757372,
   1396182291, 1695183700, 1986661051, 2177026350, 2456956037,
   2730485921, 2820302411, 3259730800, 3345764771, 3516065817,
   3600352804, 4094571909, 275423344, 430227734, 506948616,
   659060556, 883997877, 958139571, 1322822218, 1537002063,
   1747873779, 1955562222, 2024104815, 2227730452, 2361852424,
   2428436474, 2756734187, 3204031479, 3329325298]

/-- SHA-256 initial hash value. -/
def sha256H0 : List Nat :=
  [1779033703, 3144134277, 1013904242, 2773480762,
   1359893119, 2600822924, 528734635, 1541459225]

/-- Big-endian byte expansion of n into k bytes. -/
def beBytes : Nat → Nat → List Nat
  | 0, _ => []
  | k + 1, n => beBytes k (n / 256) ++ [n % 256]

/-- FIPS 180-4 padding: append 0x80, zero bytes to 56 mod 64, then the
64-bit big-endian bit length. -/
def sha256Pad (msg : List Nat) : List Nat :=
  let padZeros := (119 - msg.length % 64) % 64
  msg ++ [0x80] ++ List.replicate padZeros 0 ++ beBytes 8 (msg.length * 8)

/-- Big-endian 32-bit words from bytes. -/
def wordsOfBytes : List Nat → List Nat
  | a :: b :: c :: d :: rest => (((a * 256 + b) * 256 + c) * 256 + d) :: wordsOfBytes rest
  | _ => []

/-- Small sigma 0. -/
def ssig0 (x : Nat) : Nat := rotr32 x 7 ^^^ rotr32 x 18 ^^^ (x >>> 3)

/-- Small sigma 1. -/
def ssig1 (x : Nat) : Nat := rotr32 x 17 ^^^ rotr32 x 19 ^^^ (x >>> 10)

/-- Message-schedule extension, accumulator kept in reverse order. -/
def scheduleExtRev (accRev : List Nat) : Nat → List Nat
  | 0 => accRev
  | n + 1 =>
      scheduleExtRev
        (w32 (ssig1 (accRev.getD 1 0) + accRev.getD 6 0 +
              ssig0 (accRev.getD 14 0) + accRev.getD 15 0) :: accRev) n

/-- 64-entry message schedule from a 16-word block. -/
def sha256Schedule (ws : List Nat) : List Nat :=
  (scheduleExtRev ws.reverse 48).reverse

/-- One compression round; the state is [a,b,c,d,e,f,g,h]. -/
def sha256Round (st : List Nat) (kw : Nat × Nat) : List Nat :=
  match st with
  | [a, b, c, d, e, f, g, h] =>
      let s1 := rotr32 e 6 ^^^ rotr32 e 11 ^^^ rotr32 e 25
      let ch := (e &&& f) ^^^ (not32 e &&& g)
      let temp1 := w32 (h + s1 + ch + kw.1 + kw.2)
      let s0 := rotr32 a 2 ^^^ rotr32 a 13 ^^^ rotr32 a 22
      let maj := (a &&& b) ^^^ (a &&& c) ^^^ (b &&& c)
      let temp2 := w32 (s0 + maj)
      [w32 (temp1 + temp2), a, b, c, w32 (d + temp1), e, f, g]
  | other => other

/-- Compress one 16-word block into the running hash. -/
def sha256Compress (h : List Nat) (block : List Nat) : List Nat :=
  let st := ((sha256Schedule block).zip sha256K).foldl
    (fun s kw => sha256Round s (kw.2, kw.1)) h
  (h.zip st).map (fun p => w32 (p.1 + p.2))

/-- Fold the compression function over the padded word stream. -/
def sha256Blocks (h : List Nat) : List Nat → List Nat
  | w0 :: w1 :: w2 :: w3 :: w4 :: w5 :: w6 :: w7 ::
    w8 :: w9 :: w10 :: w11 :: w12 :: w13 :: w14 :: w15 :: rest =>
      sha256Blocks
        (sha256Compress h [w0, w1, w2, w3, w4, w5, w6, w7,
                           w8, w9, w10, w11, w12, w13, w14, w15]) rest
  | _ => h

/-- Lower-case hex digit. -/
def hexDigit (n : Nat) : Char :=
  if n < 10 then Char.ofNat (48 + n) else Char.ofNat (87 + n)

/-- 8-hex-digit rendering of a 32-bit word. -/
def toHex8 (n : Nat) : String :=
  String.mk ((List.range 8).map (fun i => hexDigit ((n >>> ((7 - i) * 4)) &&& 15)))

/-- ASCII bytes of a string (all hashed inputs in this development are ASCII,
where UTF-8 agrees with the code points). -/
def bytesOfString (s : String) : List Nat := s.data.map Char.toNat

/-- Hex digest of SHA-256 of a string. -/
def sha256Hex (s : String) : String :=
  String.join ((sha256Blocks sha256H0 (wordsOfBytes (sha256Pad (bytesOfString s)))).map toHex8)

/-- Sanity: FIPS 180-4 test vector for the message "abc". -/
theorem sha256Hex_abc :
    sha256Hex ("abc") = "ba7816bf8f01cfea414140de5dae2223b00361a396177a9cb410ff61f20015ad" := by
  decide

/-! ## Domain types (src/src/types/domain.ts) -/

/-- Severity enum. -/
inductive Severity where
  | info : Severity
  | warning : Severity
  | critical : Severity
  deriving DecidableEq

/-- Alert record.  The display-only message, entities and links fields are
omitted: their contents are locale- and number-formatting dependent
(toLocaleString) and no claim concerns them. -/
structure Alert where
  id : String
  probeId : String
  ruleId : String
  severity : Severity
  title : String
  timestamp : Int
  deriving DecidableEq

/-- A JS record of fact values, represented by its association list; lookup
yields undefined (none) for absent keys. -/
abbrev KVMap := List (String × FactValue)

/-- Property read m[k]. -/
def lookupKV : KVMap → String → Option FactValue
  | [], _ => none
  | p :: rest, k => if p.1 == k then some p.2 else lookupKV rest k

/-- Property write m[k] = v.  Writing JS undefined (none) is observationally
the removal of the key: reads yield undefined either way and JSON
serialization drops the key (base-rule.ts setRuleState with undefined data).
The record is represented by its lookup table, so the rewrite keeps lookup
semantics while normalizing the entry to the front. -/
def setKV (m : KVMap) (k : String) : Option FactValue → KVMap
  | none => m.filter (fun p => !(p.1 == k))
  | some v => (k, v) :: m.filter (fun p => !(p.1 == k))

/-- Fact bag produced by a probe run (domain.ts Facts). -/
abbrev Facts := KVMap

/-- Namespaced per-probe persistent state (domain.ts ProbeState).  The rule
namespace stores each rule's private slot under its ruleId. -/
structure ProbeState where
  probe : KVMap
  rule : KVMap
  deriving DecidableEq

/-- The empty state used by the watchdog path (runner.ts: probe :{}, rule :{}). -/
def emptyProbeState : ProbeState := { probe := [], rule := [] }

/-! ## Alert id helpers (src/src/utils/alert-helpers.ts) -/

/-- createHash: first 8 hex chars of the SHA-256 digest. -/
def createHash (input : String) : String := (sha256Hex input).take 8

/-- generateAlertId. -/
def generateAlertId (probeId ruleId stableKey : String) : String :=
  probeId ++ ":" ++ ruleId ++ ":" ++ stableKey

/-- Stable key of threshold alerts. -/
def breachKey : String := "breach"

/-- generateThresholdAlertId. -/
def generateThresholdAlertId (probeId ruleId : String) : String :=
  generateAlertId probeId ruleId breachKey

/-- generateChangeAlertId: hashes the template rendering of old and new,
which is String conversion of each side around the arrow. -/
def generateChangeAlertId (probeId ruleId : String)
    (oldValue newValue : Option FactValue) : String :=
  generateAlertId probeId ruleId
    (createHash (jsToString oldValue ++ "->" ++ jsToString newValue))

/-! ## Threshold rule (src/src/rules/threshold.ts) -/

/-- Comparison operators of threshold rules. -/
inductive CmpOp where
  | gt : CmpOp
  | ge : CmpOp
  | lt : CmpOp
  | le : CmpOp
  deriving DecidableEq

/-- The configured comparison. -/
def cmpEval : CmpOp → Rat → Rat → Bool
  | CmpOp.gt, v, t => decide (v > t)
  | CmpOp.ge, v, t => decide (v ≥ t)
  | CmpOp.lt, v, t => decide (v < t)
  | CmpOp.le, v, t => decide (v ≤ t)

/-- Threshold rule configuration (messageTemplate omitted, display-only). -/
structure ThresholdConfig where
  fact : String
  threshold : Rat
  operator : CmpOp
  severity : Option Severity
  title : Option String

/-- Numeric coercion of threshold.ts line 19:
parseFloat(String(facts[fact] ?? '')); none models NaN. -/
def coerceNum (v : Option FactValue) : Option Rat :=
  let s : String :=
    match v with
    | none => ""
    | some FactValue.vNull => ""
    | some w => jsToString (some w)
  jsParseFloat s

/-- Threshold slot value "ok". -/
def okVal : FactValue := FactValue.vStr ("ok")

/-- Threshold slot value "triggered". -/
def triggeredVal : FactValue := FactValue.vStr ("triggered")

/-- ThresholdRule.evaluate.  Inputs: the fact bag and the rule-namespace map
of the probe state; output: the produced alert (if any) and the updated rule
map.  The lastStatus default mirrors getRuleState(context) ?? 'ok' (both
undefined and null fall back).  now stands for Date.now() at evaluation. -/
def thresholdEvaluate (cfg : ThresholdConfig) (ruleId probeId : String) (now : Int)
    (facts : Facts) (ruleMap : KVMap) : Option Alert × KVMap :=
  match coerceNum (lookupKV facts cfg.fact) with
  | none => (none, ruleMap)
  | some val =>
      let triggered := cmpEval cfg.operator val cfg.threshold
      let lastStatus : FactValue :=
        match lookupKV ruleMap ruleId with
        | none => okVal
        | some FactValue.vNull => okVal
        | some v => v
      if triggered && (lastStatus == okVal) then
        (some { id := generateThresholdAlertId probeId ruleId,
                probeId := probeId, ruleId := ruleId,
                severity := cfg.severity.getD Severity.warning,
                title := cfg.title.getD ("Threshold Breached"),
                timestamp := now },
         setKV ruleMap ruleId (some triggeredVal))
      else if !triggered then
        (none, setKV ruleMap ruleId (some okVal))
      else
        (none, ruleMap)

/-! ## Change rule (src/rules/change.ts) -/

/-- Change rule configuration (messageTemplate omitted, display-only). -/
structure ChangeConfig where
  fact : String
  severity : Option Severity
  title : Option String

/-- ChangeRule.evaluate.  The comparison is JS strict inequality (!==)
between the current fact value (possibly undefined) and the stored slot
value; on the modelled value domain (no IEEE NaN) strict equality is
structural equality of the tagged values. -/
def changeEvaluate (cfg : ChangeConfig) (ruleId probeId : String) (now : Int)
    (facts : Facts) (ruleMap : KVMap) : Option Alert × KVMap :=
  let currentValue := lookupKV facts cfg.fact
  match lookupKV ruleMap ruleId with
  | some lastValue =>
      if currentValue ≠ some lastValue then
        (some { id := generateChangeAlertId probeId ruleId (some lastValue) currentValue,
                probeId := probeId, ruleId := ruleId,
                severity := cfg.severity.getD Severity.info,
                title := cfg.title.getD ("Value Changed"),
                timestamp := now },
         setKV ruleMap ruleId currentValue)
      else (none, ruleMap)
  | none => (none, setKV ruleMap ruleId currentValue)

/-! ## Persistent alert tables (src/src/engine/state-manager.ts) -/

/-- sent_alerts (alert_id -> sent_at) and cooldowns (key -> last_sent_at).
The probe_id and rule_id columns of sent_alerts are stored but never read
back by the engine, so they are not carried.  CURRENT_TIMESTAMP is the now
argument of the recording operations. -/
structure AlertStore where
  sentAlerts : List (String × Int)
  cooldowns : List (String × Int)
  deriving DecidableEq

/-- Keyed timestamp lookup. -/
def lookupTime : List (String × Int) → String → Option Int
  | [], _ => none
  | p :: rest, k => if p.1 == k then some p.2 else lookupTime rest k

/-- StateManager.isAlertSent with optional TTL.  A passed TTL of 0 is falsy
in JS and behaves like an omitted TTL (permanent dedup). -/
def isAlertSent (store : AlertStore) (alertId : String) (ttlMs : Option Int)
    (now : Int) : Bool :=
  match lookupTime store.sentAlerts alertId with
  | none => false
  | some sentAt =>
      match ttlMs with
      | none => true
      | some t => if t == 0 then true else decide (now - sentAt < t)

/-- StateManager.recordAlert: INSERT OR IGNORE semantics. -/
def recordAlert (store : AlertStore) (alertId _probeId _ruleId : String)
    (now : Int) : AlertStore :=
  if (lookupTime store.sentAlerts alertId).isSome then store
  else { store with sentAlerts := (alertId, now) :: store.sentAlerts }

/-- StateManager.isInCooldown. -/
def isInCooldown (store : AlertStore) (key : String) (intervalMs now : Int) : Bool :=
  match lookupTime store.cooldowns key with
  | none => false
  | some lastSent => decide (now - lastSent < intervalMs)

/-- StateManager.recordCooldown: upsert last_sent_at = now. -/
def recordCooldown (store : AlertStore) (key : String) (now : Int) : AlertStore :=
  { store with cooldowns := (key, now) :: store.cooldowns.filter (fun p => !(p.1 == key)) }

/-! ## Alert pipeline (src/src/engine/alert-manager.ts) -/

/-- Key of the probe-level mute timestamp. -/
def mutedUntilKey : String := "muted_until"

/-- AlertManager.isMuted: muted_until !== undefined && Date.now() < muted_until.
The JS < comparison coerces its operand to a number; comparisons against NaN
are false. -/
def isMuted (state : ProbeState) (now : Int) : Bool :=
  match lookupKV state.probe mutedUntilKey with
  | none => false
  | some v =>
      match jsToNumber v with
      | none => false
      | some x => decide ((now : Rat) < x)

/-- A send(alert) invocation on one registered channel. -/
structure SendEvent where
  channel : String
  alertId : String
  deriving DecidableEq

/-- The fixed 15-minute cooldown window. -/
def cooldownWindowMs : Int := 15 * 60 * 1000

/-- Cooldown key probeId:ruleId. -/
def cooldownKey (a : Alert) : String := a.probeId ++ ":" ++ a.ruleId

/-- One iteration of the AlertManager.processAlerts loop for a single alert:
mute -> dedup (no TTL passed) -> cooldown (15 min) -> fan-out to every
registered channel (per-channel send failures are caught and isolated, so the
send invocation happens for each channel regardless) -> record alert and
cooldown. -/
def processOneAlert (channels : List String) (probeState : ProbeState) (now : Int)
    (alert : Alert) (store : AlertStore) : List SendEvent × AlertStore :=
  if isMuted probeState now then ([], store)
  else if isAlertSent store alert.id none now then ([], store)
  else if isInCooldown store (cooldownKey alert) cooldownWindowMs now then ([], store)
  else
    (channels.map (fun c => { channel := c, alertId := alert.id }),
     recordCooldown (recordAlert store alert.id alert.probeId alert.ruleId now)
       (cooldownKey alert) now)

/-- AlertManager.processAlerts: sequential loop over the batch threading the
persistent store; returns the send log and the final store. -/
def processAlerts (channels : List String) (alerts : List Alert)
    (probeState : ProbeState) (now : Int) (store : AlertStore) :
    List SendEvent × AlertStore :=
  match alerts with
  | [] => ([], store)
  | a :: rest =>
      let r := processOneAlert channels probeState now a store
      let r2 := processAlerts channels rest probeState now r.2
      (r.1 ++ r2.1, r2.2)

/-- A sequence of pipeline invocations threading the persistent store: each
entry is one processAlerts call (batch, probe state handed in, wall-clock
time). -/
def pipelineTrace (channels : List String) :
    List (List Alert × ProbeState × Int) → AlertStore → List SendEvent × AlertStore
  | [], store => ([], store)
  | c :: rest, store =>
      let r := processAlerts channels c.1 c.2.1 c.2.2 store
      let r2 := pipelineTrace channels rest r.2
      (r.1 ++ r2.1, r2.2)

/-! ## Circuit breaker (src/utils/circuit-breaker.ts) -/

/-- CircuitState enum (OPEN clashes with a keyword and is rendered opened). -/
inductive CircuitState where
  | closed : CircuitState
  | opened : CircuitState
  | halfOpen : CircuitState
  deriving DecidableEq

/-- Breaker parameters. -/
structure CircuitBreakerConfig where
  failureThreshold : Nat
  resetTimeout : Int
  halfOpenMaxAttempts : Nat

/-- Mutable breaker fields. -/
structure CBState where
  state : CircuitState
  failureCount : Nat
  successCount : Nat
  lastFailureTime : Int
  lastStateChange : Int
  halfOpenAttempts : Nat
  deriving DecidableEq

/-- Fresh breaker as initialized by the constructor at time now. -/
def initialCBState (now : Int) : CBState :=
  { state := CircuitState.closed, failureCount := 0, successCount := 0,
    lastFailureTime := 0, lastStateChange := now, halfOpenAttempts := 0 }

/-- transitionTo. -/
def cbTransition (st : CBState) (newState : CircuitState) (now : Int) : CBState :=
  { st with state := newState, lastStateChange := now }

/-- onSuccess. -/
def cbOnSuccess (cfg : CircuitBreakerConfig) (now : Int) (st : CBState) : CBState :=
  let st1 := { st with successCount := st.successCount + 1 }
  if st1.state == CircuitState.halfOpen then
    let st2 := { st1 with halfOpenAttempts := st1.halfOpenAttempts + 1 }
    if st2.halfOpenAttempts ≥ cfg.halfOpenMaxAttempts then
      { cbTransition st2 CircuitState.closed now with failureCount := 0, successCount := 0 }
    else st2
  else if st1.state == CircuitState.closed then
    { st1 with failureCount := 0 }
  else st1

/-- onFailure (the threshold test reads the already-incremented count). -/
def cbOnFailure (cfg : CircuitBreakerConfig) (now : Int) (st : CBState) : CBState :=
  let st1 := { st with failureCount := st.failureCount + 1, lastFailureTime := now }
  if st1.state == CircuitState.halfOpen then
    cbTransition st1 CircuitState.opened now
  else if st1.state == CircuitState.closed && st1.failureCount ≥ cfg.failureThreshold then
    cbTransition st1 CircuitState.opened now
  else st1

/-- Outcome of one execute call; fastFail carries the thrown message and
means fn was never invoked. -/
inductive ExecOutcome where
  | fastFail : String → ExecOutcome
  | success : ExecOutcome
  | failure : ExecOutcome
  deriving DecidableEq

/-- Result of one execute call: outcome, post state, and whether fn ran. -/
structure ExecResult where
  outcome : ExecOutcome
  post : CBState
  fnInvoked : Bool
  deriving DecidableEq

/-- Math.ceil(a / 1000) over exact integers, for a ≥ 0 (the only uses). -/
def ceilDiv1000 (a : Int) : Int := (a + 999) / 1000

/-- CircuitBreaker.execute, the wrapped fn abstracted by whether it would
succeed (fnOk); now is Date.now(). -/
def cbExecute (cfg : CircuitBreakerConfig) (serviceName : String) (now : Int)
    (fnOk : Bool) (st : CBState) : ExecResult :=
  if st.state == CircuitState.opened then
    let timeSinceFailure := now - st.lastFailureTime
    if timeSinceFailure ≥ cfg.resetTimeout then
      let st1 := { cbTransition st CircuitState.halfOpen now with halfOpenAttempts := 0 }
      if fnOk then
        { outcome := ExecOutcome.success, post := cbOnSuccess cfg now st1, fnInvoked := true }
      else
        { outcome := ExecOutcome.failure, post := cbOnFailure cfg now st1, fnInvoked := true }
    else
      let remainingTime := ceilDiv1000 (cfg.resetTimeout - timeSinceFailure)
      { outcome := ExecOutcome.fastFail
          ("Circuit OPEN for " ++ serviceName ++ ". Retry in " ++ toString remainingTime ++ "s"),
        post := st, fnInvoked := false }
  else
    if fnOk then
      { outcome := ExecOutcome.success, post := cbOnSuccess cfg now st, fnInvoked := true }
    else
      { outcome := ExecOutcome.failure, post := cbOnFailure cfg now st, fnInvoked := true }

/-! ## Probe runner (src/engine/runner.ts) -/

/-- run_history row (state-manager.ts recordRun). -/
structure RunRecord where
  probeId : String
  status : String
  durationMs : Int
  errorMessage : Option String
  deriving DecidableEq

/-- Engine persistence touched by a run completion: probe_state table and
run history. -/
structure EngineDB where
  probeStates : List (String × ProbeState)
  runHistory : List RunRecord
  deriving DecidableEq

/-- probe_state lookup. -/
def lookupState : List (String × ProbeState) → String → Option ProbeState
  | [], _ => none
  | p :: rest, k => if p.1 == k then some p.2 else lookupState rest k

/-- probe_state upsert (SaveProbeState). -/
def upsertState (m : List (String × ProbeState)) (k : String) (v : ProbeState) :
    List (String × ProbeState) :=
  (k, v) :: m.filter (fun p => !(p.1 == k))

/-- activeLocks table: probeId -> acquisition timestamp. -/
abbrev LockMap := List (String × Int)

/-- activeLocks.delete. -/
def eraseLock (m : LockMap) (k : String) : LockMap := m.filter (fun p => !(p.1 == k))

/-- activeLocks.set. -/
def setLock (m : LockMap) (k : String) (t : Int) : LockMap := (k, t) :: eraseLock m k

/-- The ruleId of watchdog system alerts. -/
def systemRuleId : String := "system"

/-- The watchdog's constant alert id for a probe. -/
def stuckAlertId (probeId : String) : String := probeId ++ ":system:stuck"

/-- The watchdog's synthesized critical alert (runner.ts lines 109-117). -/
def stuckAlert (probeId : String) (now : Int) : Alert :=
  { id := stuckAlertId probeId, probeId := probeId, ruleId := systemRuleId,
    severity := Severity.critical, title := "Probe Stuck", timestamp := now }

/-- The single-flight gate and lock acquisition at the top of
runProbeWithTimeout (lines 100-127).  none: the tick is skipped (lock held
within the 2 x timeout window).  some (wd, locks): wd is the watchdog alert
(routed through the pipeline with an empty probe state) when the lock was
held beyond 2 x timeout and force-released, and locks is the table after this
run stamps its acquisition timestamp.  (The code reads the lock with a JS
truthiness check; lock timestamps are Date.now() values, never 0.) -/
def gateAndAcquire (locks : LockMap) (probeId : String) (timeout now : Int) :
    Option (Option Alert × LockMap) :=
  match lookupTime locks probeId with
  | some lockTime =>
      if now - lockTime > timeout * 2 then
        some (some (stuckAlert probeId now), setLock (eraseLock locks probeId) probeId now)
      else none
  | none => some (none, setLock locks probeId now)

/-- The success completion path of runProbeWithTimeout (lines 183-197): save
the run-mutated state, append a success run record, release the lock.  Both
the save and the release are unconditional: the code never compares the
current lock entry against the timestamp this run stamped at acquisition. -/
def completeRunSuccess (db : EngineDB) (locks : LockMap) (probeId : String)
    (state : ProbeState) (startedAt now : Int) : EngineDB × LockMap :=
  let row : RunRecord :=
    { probeId := probeId, status := "success",
      durationMs := now - startedAt, errorMessage := none }
  ({ probeStates := upsertState db.probeStates probeId state,
     runHistory := db.runHistory ++ [row] },
   eraseLock locks probeId)

/-- The error completion path (lines 190-197): no state save, an error run
record, unconditional lock release. -/
def completeRunError (db : EngineDB) (locks : LockMap) (probeId : String)
    (errorMsg : String) (startedAt now : Int) : EngineDB × LockMap :=
  let row : RunRecord :=
    { probeId := probeId, status := "error",
      durationMs := now - startedAt, errorMessage := some errorMsg }
  ({ db with runHistory := db.runHistory ++ [row] },
   eraseLock locks probeId)

/-- Scheduler timer table: probe ids with an armed interval timer
(runningProbes; the NodeJS timer handle itself is opaque). -/
structure RunnerTimers where
  runningProbes : List String
  deriving DecidableEq

/-- enableProbe (runner.ts lines 207-211): a stub that only logs; the timer
table is untouched. -/
def enableProbe (r : RunnerTimers) (_id : String) : RunnerTimers := r

/-- disableProbe (runner.ts lines 213-218): clearInterval and delete the
timer entry. -/
def disableProbe (r : RunnerTimers) (id : String) : RunnerTimers :=
  { runningProbes := r.runningProbes.filter (fun p => !(p == id)) }

/-! ## Map lemmas -/

theorem lookupKV_filterNe (m : KVMap) (k a : String) :
    lookupKV (m.filter (fun p => !(p.1 == k))) a =
      (if (k == a) = true then none else lookupKV m a) := by
  induction m with
  | nil => by_cases h : k = a <;> simp [lookupKV, h]
  | cons p rest ih =>
      by_cases hp : p.1 = k
      · have hdrop : List.filter (fun q => !(q.1 == k)) (p :: rest) =
            List.filter (fun q => !(q.1 == k)) rest := by
          simp [List.filter_cons, beq_iff_eq, hp]
        rw [hdrop, ih]
        by_cases h : k = a
        · simp [h]
        · have hpa : ¬ p.1 = a := by rw [hp]; exact h
          simp [h, lookupKV, beq_iff_eq, hpa]
      · have hkeep : List.filter (fun q => !(q.1 == k)) (p :: rest) =
            p :: List.filter (fun q => !(q.1 == k)) rest := by
          simp [List.filter_cons, beq_iff_eq, hp]
        rw [hkeep]
        by_cases hpa : p.1 = a
        · have h : ¬ k = a := fun e => hp (by rw [hpa, e])
          simp [lookupKV, beq_iff_eq, hpa, h]
        · simp only [lookupKV, beq_iff_eq]
          rw [ih]
          simp [hpa]

theorem lookupKV_setKV (m : KVMap) (k a : String) (v : Option FactValue) :
    lookupKV (setKV m k v) a = (if (k == a) = true then v else lookupKV m a) := by
  cases v with
  | none => simp [setKV, lookupKV_filterNe]
  | some w =>
      by_cases h : k = a
      · simp [setKV, lookupKV, beq_iff_eq, h]
      · simp [setKV, lookupKV, beq_iff_eq, h, lookupKV_filterNe]

theorem lookupTime_filterNe (m : List (String × Int)) (k a : String) :
    lookupTime (m.filter (fun p => !(p.1 == k))) a =
      (if (k == a) = true then none else lookupTime m a) := by
  induction m with
  | nil => by_cases h : k = a <;> simp [lookupTime, h]
  | cons p rest ih =>
      by_cases hp : p.1 = k
      · have hdrop : List.filter (fun q => !(q.1 == k)) (p :: rest) =
            List.filter (fun q => !(q.1 == k)) rest := by
          simp [List.filter_cons, beq_iff_eq, hp]
        rw [hdrop, ih]
        by_cases h : k = a
        · simp [h]
        · have hpa : ¬ p.1 = a := by rw [hp]; exact h
          simp [h, lookupTime, beq_iff_eq, hpa]
      · have hkeep : List.filter (fun q => !(q.1 == k)) (p :: rest) =
            p :: List.filter (fun q => !(q.1 == k)) rest := by
          simp [List.filter_cons, beq_iff_eq, hp]
        rw [hkeep]
        by_cases hpa : p.1 = a
        · have h : ¬ k = a := fun e => hp (by rw [hpa, e])
          simp [lookupTime, beq_iff_eq, hpa, h]
        · simp only [lookupTime, beq_iff_eq]
          rw [ih]
          simp [hpa]

/-! ## Shared concrete inputs for witnesses -/

def sampleProbeId : String := "p"

def sampleRuleId : String := "r"

def sampleChannel : String := "tg"

def emptyStore : AlertStore := { sentAlerts := [], cooldowns := [] }

/-! ## C8: uncoercible threshold facts -/

/-- C8: for every threshold-rule evaluation in which the configured fact is
missing from the bag or its value fails numeric coercion
(parseFloat(String(v ?? '')) is NaN), evaluate returns null, emits no alert,
and leaves the rule state untouched. -/
theorem threshold_uncoercible_no_alert (cfg : ThresholdConfig) (ruleId probeId : String)
    (now : Int) (facts : Facts) (ruleMap : KVMap)
    (h : lookupKV facts cfg.fact = none ∨ coerceNum (lookupKV facts cfg.fact) = none) :
    thresholdEvaluate cfg ruleId probeId now facts ruleMap = (none, ruleMap) := by
  have hc : coerceNum (lookupKV facts cfg.fact) = none := by
    rcases h with h | h
    · rw [h]; decide
    · exact h
  simp [thresholdEvaluate, hc]

def c8cfg : ThresholdConfig :=
  { fact := "metric.x", threshold := 15, operator := CmpOp.gt, severity := none, title := none }

/-- Witness for C8 at a concrete input: the fact bag is empty. -/
theorem threshold_uncoercible_no_alert_witness :
    thresholdEvaluate c8cfg sampleRuleId sampleProbeId 0 [] [] = (none, []) :=
  threshold_uncoercible_no_alert c8cfg sampleRuleId sampleProbeId 0 [] []
    (Or.inl (by decide))

/-! ## C5: mute transparency -/

/-- C5: while the supplied probe state has probe.muted_until set to a time in
the future, every alert in the batch is suppressed at the mute stage: no
channel send is invoked and the persistent store (sent_alerts and cooldowns)
is unchanged. -/
theorem mute_suppresses_all (channels : List String) (alerts : List Alert)
    (st : ProbeState) (now : Int) (store : AlertStore) (t : Int)
    (hm : lookupKV st.probe mutedUntilKey = some (FactValue.vInt t))
    (hf : now < t) :
    processAlerts channels alerts st now store = ([], store) := by
  have hmut : isMuted st now = true := by
    unfold isMuted
    rw [hm]
    simp only [jsToNumber]
    simp only [decide_eq_true_eq]
    exact_mod_cast hf
  induction alerts with
  | nil => simp [processAlerts]
  | cons a rest ih => simp [processAlerts, processOneAlert, hmut, ih]

def c5state : ProbeState := { probe := [(mutedUntilKey, FactValue.vInt 10)], rule := [] }

def c5alert : Alert :=
  { id := "p:r:breach", probeId := sampleProbeId, ruleId := sampleRuleId,
    severity := Severity.warning, title := "Threshold Breached", timestamp := 5 }

/-- Witness for C5 at a concrete input: one alert, muted_until = 10, now = 5. -/
theorem mute_suppresses_all_witness :
    lookupKV c5state.probe mutedUntilKey = some (FactValue.vInt 10) ∧ (5 : Int) < 10 ∧
    processAlerts [sampleChannel] [c5alert] c5state 5 emptyStore = ([], emptyStore) :=
  ⟨by decide, by decide,
   mute_suppresses_all [sampleChannel] [c5alert] c5state 5 emptyStore 10 (by decide) (by decide)⟩

/-! ## C7: enable / disable -/

/-- C7 counterexample: enableProbe is a stub; invoked on a scheduler whose
timer table does not contain the probe, it leaves the table unchanged and in
particular does not re-arm the probe's timer, refuting "Enable(probeId)
re-arms the probe's timer". -/
theorem enableProbe_does_not_rearm :
    enableProbe { runningProbes := [] } sampleProbeId = { runningProbes := [] } ∧
    sampleProbeId ∉ (enableProbe { runningProbes := [] } sampleProbeId).runningProbes := by
  exact ⟨rfl, by decide⟩

/-- C7 amended: Enable(probeId) is a no-op that never re-arms the timer;
Disable(probeId) cancels the probe's timer; both operations are idempotent
(a second call with the same probeId leaves the timer state unchanged). -/
theorem enable_disable_idempotent (r : RunnerTimers) (id : String) :
    enableProbe r id = r ∧
    id ∉ (disableProbe r id).runningProbes ∧
    disableProbe (disableProbe r id) id = disableProbe r id ∧
    enableProbe (enableProbe r id) id = enableProbe r id := by
  refine ⟨rfl, ?_, ?_, rfl⟩
  · simp [disableProbe, List.mem_filter]
  · simp [disableProbe, List.filter_filter]

/-! ## C1: stale-run completion after watchdog force-release -/

def c1sA : ProbeState := { probe := [("x", FactValue.vInt 1)], rule := [] }

def c1sB : ProbeState := { probe := [("x", FactValue.vInt 2)], rule := [] }

def c1db0 : EngineDB := { probeStates := [], runHistory := [] }

/-- C1 (code-bug exhibit): run A acquires the lock at t = 0 with timeout
15000.  At t = 40000 the lock age exceeds 2 x timeout, so run B's gate fires
the watchdog, force-releases the lock and stamps B's own acquisition; B
completes at t = 41000 saving its state c1sB.  The stale run A then reaches
its completion at t = 42000: its activeLocks entry is absent (B released it
on completion, so it certainly differs from the timestamp A stamped), yet
the completion path saves unconditionally, so the final stored state is the
stale run's c1sA and the newer run's save is lost.  This refutes the claimed
skip of the stale run's ProbeState save. -/
theorem stale_save_overwrites_newer_state :
    gateAndAcquire [] sampleProbeId 15000 0 = some (none, [(sampleProbeId, 0)]) ∧
    gateAndAcquire [(sampleProbeId, 0)] sampleProbeId 15000 40000 =
      some (some (stuckAlert sampleProbeId 40000), [(sampleProbeId, 40000)]) ∧
    (completeRunSuccess c1db0 [(sampleProbeId, 40000)] sampleProbeId c1sB 40000 41000).2 = [] ∧
    lookupState (completeRunSuccess
        (completeRunSuccess c1db0 [(sampleProbeId, 40000)] sampleProbeId c1sB 40000 41000).1
        [] sampleProbeId c1sA 0 42000).1.probeStates sampleProbeId = some c1sA ∧
    c1sA ≠ c1sB := by
  refine ⟨by decide, by decide, by decide, by decide, by decide⟩

/-! ## C10: change rule on a vanished fact -/

/-- C10: for a change rule holding a stored previous value, an evaluation in
which the configured fact is absent (undefined) emits one change alert whose
new side is undefined (id hashes "old->undefined") and stores undefined, so
the following evaluation finds no stored value and is a first touch: it
stores the then-current value without alerting. -/
theorem change_undefined_then_first_touch (cfg : ChangeConfig) (ruleId probeId : String)
    (now now2 : Int) (facts facts2 : Facts) (ruleMap : KVMap) (last : FactValue)
    (h1 : lookupKV ruleMap ruleId = some last)
    (h2 : lookupKV facts cfg.fact = none) :
    changeEvaluate cfg ruleId probeId now facts ruleMap =
      (some { id := generateChangeAlertId probeId ruleId (some last) none,
              probeId := probeId, ruleId := ruleId,
              severity := cfg.severity.getD Severity.info,
              title := cfg.title.getD ("Value Changed"),
              timestamp := now },
       setKV ruleMap ruleId none) ∧
    lookupKV (setKV ruleMap ruleId none) ruleId = none ∧
    changeEvaluate cfg ruleId probeId now2 facts2 (setKV ruleMap ruleId none) =
      (none, setKV (setKV ruleMap ruleId none) ruleId (lookupKV facts2 cfg.fact)) := by
  refine ⟨?_, ?_, ?_⟩
  · simp [changeEvaluate, h1, h2]
  · simp [lookupKV_setKV]
  · have hnone : lookupKV (setKV ruleMap ruleId none) ruleId = none := by
      simp [lookupKV_setKV]
    simp [changeEvaluate, hnone]

def c10cfg : ChangeConfig := { fact := "f", severity := none, title := none }

def c10map : KVMap := [(sampleRuleId, FactValue.vStr ("A"))]

def c10facts2 : Facts := [("f", FactValue.vStr ("B"))]

/-- Witness for C10 at a concrete input: stored "A", fact absent, then "B". -/
theorem change_undefined_then_first_touch_witness :
    lookupKV c10map sampleRuleId = some (FactValue.vStr ("A")) ∧
    lookupKV ([] : Facts) c10cfg.fact = none ∧
    (changeEvaluate c10cfg sampleRuleId sampleProbeId 1 [] c10map =
      (some { id := generateChangeAlertId sampleProbeId sampleRuleId
                (some (FactValue.vStr ("A"))) none,
              probeId := sampleProbeId, ruleId := sampleRuleId,
              severity := c10cfg.severity.getD Severity.info,
              title := c10cfg.title.getD ("Value Changed"),
              timestamp := 1 },
       setKV c10map sampleRuleId none) ∧
    lookupKV (setKV c10map sampleRuleId none) sampleRuleId = none ∧
    changeEvaluate c10cfg sampleRuleId sampleProbeId 2 c10facts2 (setKV c10map sampleRuleId none) =
      (none, setKV (setKV c10map sampleRuleId none) sampleRuleId
               (lookupKV c10facts2 c10cfg.fact))) :=
  ⟨by decide, by decide,
   change_undefined_then_first_touch c10cfg sampleRuleId sampleProbeId 1 2 [] c10facts2
     c10map (FactValue.vStr ("A")) (by decide) (by decide)⟩

/-! ## C3: change rule comparison and alert id -/

def c3cfg : ChangeConfig := { fact := "f", severity := none, title := none }

def c3mapNum : KVMap := [(sampleRuleId, FactValue.vInt 5)]

def c3factsStr : Facts := [("f", FactValue.vStr ("5"))]

/-- C3 counterexample: with stored value the number 5 and current fact value
the string "5", the two values are equal under string conversion, yet
evaluate emits an alert.  The code compares with JS strict inequality (!==),
not string equality, refuting "an alert is emitted if and only if the new
and stored values differ by string equality". -/
theorem change_string_equality_refuted :
    jsToString (some (FactValue.vInt 5)) = jsToString (some (FactValue.vStr ("5"))) ∧
    (changeEvaluate c3cfg sampleRuleId sampleProbeId 0 c3factsStr c3mapNum).1.isSome = true := by
  refine ⟨by decide, by decide⟩

/-- C3 amended: the first observation of the configured fact stores the value
without alerting; on every subsequent observation an alert is emitted if and
only if the new and stored values differ by JS strict (type-and-value)
equality, with id "probeId:ruleId:hash8(old->new)" where hash8 is the first
8 hex characters of SHA-256 of the string rendering "{old}->{new}", and the
new value is then stored. -/
theorem change_rule_strict (cfg : ChangeConfig) (ruleId probeId : String) (now : Int)
    (facts : Facts) (ruleMap : KVMap) :
    (lookupKV ruleMap ruleId = none →
       changeEvaluate cfg ruleId probeId now facts ruleMap =
         (none, setKV ruleMap ruleId (lookupKV facts cfg.fact))) ∧
    (∀ last, lookupKV ruleMap ruleId = some last →
       (lookupKV facts cfg.fact = some last →
          changeEvaluate cfg ruleId probeId now facts ruleMap = (none, ruleMap)) ∧
       (lookupKV facts cfg.fact ≠ some last →
          changeEvaluate cfg ruleId probeId now facts ruleMap =
            (some { id := probeId ++ ":" ++ ruleId ++ ":" ++
                      ((sha256Hex (jsToString (some last) ++ "->" ++
                        jsToString (lookupKV facts cfg.fact))).take 8),
                    probeId := probeId, ruleId := ruleId,
                    severity := cfg.severity.getD Severity.info,
                    title := cfg.title.getD ("Value Changed"),
                    timestamp := now },
             setKV ruleMap ruleId (lookupKV facts cfg.fact)))) := by
  refine ⟨fun h => by simp [changeEvaluate, h], fun last h => ⟨fun he => ?_, fun hne => ?_⟩⟩
  · simp [changeEvaluate, h, he]
  · simp [changeEvaluate, h, hne, generateChangeAlertId, generateAlertId, createHash]

def c3factsNum : Facts := [("f", FactValue.vInt 5)]

/-- Witness for the amended C3 at a concrete input: stored 5, current 5,
no alert and the state untouched. -/
theorem change_rule_strict_witness :
    lookupKV c3mapNum sampleRuleId = some (FactValue.vInt 5) ∧
    changeEvaluate c3cfg sampleRuleId sampleProbeId 0 c3factsNum c3mapNum = (none, c3mapNum) :=
  ⟨by decide,
   ((change_rule_strict c3cfg sampleRuleId sampleProbeId 0 c3factsNum c3mapNum).2
       (FactValue.vInt 5) (by decide)).1 (by decide)⟩

/-! ## C4: circuit breaker -/

/-- A run of consecutive failing execute calls (fn throws each time) at the
given Date.now() values, threading the breaker state. -/
def cbFailTimes (cfg : CircuitBreakerConfig) (serviceName : String)
    (times : List Int) (st : CBState) : CBState :=
  times.foldl (fun s t => (cbExecute cfg serviceName t false s).post) st

theorem cbFailTimes_closed_progress (cfg : CircuitBreakerConfig) (svc : String)
    (times : List Int) :
    ∀ (st : CBState), st.state = CircuitState.closed →
    st.failureCount + times.length ≤ cfg.failureThreshold →
    (cbFailTimes cfg svc times st).failureCount = st.failureCount + times.length ∧
    (st.failureCount + times.length < cfg.failureThreshold →
       (cbFailTimes cfg svc times st).state = CircuitState.closed) ∧
    (times ≠ [] → st.failureCount + times.length = cfg.failureThreshold →
       (cbFailTimes cfg svc times st).state = CircuitState.opened) := by
  induction times with
  | nil =>
      intro st hcl _
      refine ⟨by simp [cbFailTimes], fun _ => by simp [cbFailTimes, hcl],
        fun h _ => absurd rfl h⟩
  | cons t rest ih =>
      intro st hcl hb
      have hstep : cbFailTimes cfg svc (t :: rest) st =
          cbFailTimes cfg svc rest (cbOnFailure cfg t st) := by
        simp [cbFailTimes, cbExecute, hcl]
      by_cases hkk : st.failureCount + 1 ≥ cfg.failureThreshold
      · have hrest : rest = [] := by
          cases rest with
          | nil => rfl
          | cons r rs =>
              exfalso
              simp [List.length_cons] at hb
              omega
        subst hrest
        have hof : cbOnFailure cfg t st =
            { st with failureCount := st.failureCount + 1, lastFailureTime := t,
                      state := CircuitState.opened, lastStateChange := t } := by
          simp [cbOnFailure, cbTransition, hcl, hkk]
        rw [hstep, hof]
        refine ⟨by simp [cbFailTimes], fun hlt => ?_, fun _ _ => by simp [cbFailTimes]⟩
        exfalso
        simp [List.length_cons] at hlt
        omega
      · have hof : cbOnFailure cfg t st =
            { st with failureCount := st.failureCount + 1, lastFailureTime := t } := by
          simp [cbOnFailure, hcl, hkk]
        rw [hstep, hof]
        have hres := ih { st with failureCount := st.failureCount + 1, lastFailureTime := t }
          (by simp [hcl]) (by simp at hb ⊢; omega)
        refine ⟨?_, fun hlt => ?_, fun _ heq => ?_⟩
        · rw [hres.1]
          simp
          omega
        · apply hres.2.1
          simp at hlt ⊢
          omega
        · rcases rest with _ | ⟨r, rs⟩
          · exfalso
            simp at heq
            omega
          · apply hres.2.2 (by simp)
            simp at heq ⊢
            omega

/-- C4: from the closed state with failureThreshold k, exactly k consecutive
failures of fn open the breaker (fewer leave it closed with the count equal
to the number of failures); while open and before resetTimeout has elapsed
since the last failure, every execute fast-fails with an error naming the
service and the remaining cool-off seconds, does not invoke fn and leaves
the state (in particular the failure count) unchanged; a success while
closed resets the failure count to zero. -/
theorem circuit_breaker_behavior (cfg : CircuitBreakerConfig) (svc : String)
    (t0 : Int) (times : List Int) (hk : 1 ≤ cfg.failureThreshold) :
    (times.length = cfg.failureThreshold →
       (cbFailTimes cfg svc times (initialCBState t0)).state = CircuitState.opened) ∧
    (times.length < cfg.failureThreshold →
       (cbFailTimes cfg svc times (initialCBState t0)).state = CircuitState.closed ∧
       (cbFailTimes cfg svc times (initialCBState t0)).failureCount = times.length) ∧
    (∀ (st : CBState) (now : Int) (fnOk : Bool),
       st.state = CircuitState.opened → now - st.lastFailureTime < cfg.resetTimeout →
       cbExecute cfg svc now fnOk st =
         { outcome := ExecOutcome.fastFail ("Circuit OPEN for " ++ svc ++ ". Retry in " ++
             toString (ceilDiv1000 (cfg.resetTimeout - (now - st.lastFailureTime))) ++ "s"),
           post := st, fnInvoked := false }) ∧
    (∀ (st : CBState) (now : Int), st.state = CircuitState.closed →
       (cbExecute cfg svc now true st).post.failureCount = 0 ∧
       (cbExecute cfg svc now true st).post.state = CircuitState.closed) := by
  refine ⟨fun hlen => ?_, fun hlen => ?_, fun st now fnOk h1 h2 => ?_, fun st now h => ?_⟩
  · have hne : times ≠ [] := by
      intro he
      rw [he] at hlen
      simp at hlen
      omega
    have hres := cbFailTimes_closed_progress cfg svc times (initialCBState t0)
      (by rfl) (by simp [initialCBState]; omega)
    exact hres.2.2 hne (by simp [initialCBState, hlen])
  · have hres := cbFailTimes_closed_progress cfg svc times (initialCBState t0)
      (by rfl) (by simp [initialCBState]; omega)
    exact ⟨hres.2.1 (by simp [initialCBState]; omega), by rw [hres.1]; simp [initialCBState]⟩
  · have hlt : ¬ (now - st.lastFailureTime ≥ cfg.resetTimeout) := by omega
    simp [cbExecute, h1, hlt]
  · constructor <;> simp [cbExecute, cbOnSuccess, h]

def c4cfg : CircuitBreakerConfig :=
  { failureThreshold := 2, resetTimeout := 60000, halfOpenMaxAttempts := 2 }

def c4svc : String := "MyAPI"

/-- Witness for C4 at a concrete input: two failures with threshold 2 open
the breaker. -/
theorem circuit_breaker_behavior_witness :
    1 ≤ c4cfg.failureThreshold ∧ [0, 1].length = c4cfg.failureThreshold ∧
    (cbFailTimes c4cfg c4svc [0, 1] (initialCBState 0)).state = CircuitState.opened :=
  ⟨by decide, by decide,
   (circuit_breaker_behavior c4cfg c4svc 0 [0, 1] (by decide)).1 (by decide)⟩

/-! ## Pipeline helper lemmas -/

theorem processOneAlert_events_id (channels : List String) (st : ProbeState) (now : Int)
    (a : Alert) (store : AlertStore) :
    ∀ e ∈ (processOneAlert channels st now a store).1, e.alertId = a.id := by
  intro e he
  by_cases h1 : isMuted st now
  · simp [processOneAlert, h1] at he
  · by_cases h2 : isAlertSent store a.id none now
    · simp [processOneAlert, h1, h2] at he
    · by_cases h3 : isInCooldown store (cooldownKey a) cooldownWindowMs now
      · simp [processOneAlert, h1, h2, h3] at he
      · simp [processOneAlert, h1, h2, h3, List.mem_map] at he
        obtain ⟨c, _, rfl⟩ := he
        rfl

theorem processOneAlert_preserves_sent (channels : List String) (st : ProbeState)
    (now : Int) (a : Alert) (store : AlertStore) (A : String) (ts : Int)
    (hs : lookupTime store.sentAlerts A = some ts) :
    lookupTime (processOneAlert channels st now a store).2.sentAlerts A = some ts := by
  by_cases h1 : isMuted st now
  · simp [processOneAlert, h1, hs]
  · by_cases h2 : isAlertSent store a.id none now
    · simp [processOneAlert, h1, h2, hs]
    · by_cases h3 : isInCooldown store (cooldownKey a) cooldownWindowMs now
      · simp [processOneAlert, h1, h2, h3, hs]
      · have hne : ¬ (a.id = A) := by
          intro he
          rw [he] at h2
          exact h2 (by simp [isAlertSent, hs])
        simp only [processOneAlert, h1, h2, h3, if_false, if_neg]
        simp [recordCooldown, recordAlert]
        by_cases h4 : (lookupTime store.sentAlerts a.id).isSome
        · simp [h4, hs]
        · simp [h4, lookupTime, beq_iff_eq, hne, hs]

theorem processOneAlert_suppressed_of_sent (channels : List String) (st : ProbeState)
    (now : Int) (a : Alert) (store : AlertStore) (ts : Int)
    (hs : lookupTime store.sentAlerts a.id = some ts) :
    processOneAlert channels st now a store = ([], store) := by
  by_cases h1 : isMuted st now
  · simp [processOneAlert, h1]
  · have h2 : isAlertSent store a.id none now = true := by simp [isAlertSent, hs]
    simp [processOneAlert, h1, h2]

theorem processAlerts_no_send_of_sent (channels : List String) (alerts : List Alert)
    (st : ProbeState) (now : Int) :
    ∀ (store : AlertStore) (A : String) (ts : Int),
    lookupTime store.sentAlerts A = some ts →
    (∀ e ∈ (processAlerts channels alerts st now store).1, e.alertId ≠ A) ∧
    lookupTime (processAlerts channels alerts st now store).2.sentAlerts A = some ts := by
  induction alerts with
  | nil =>
      intro store A ts hs
      exact ⟨by simp [processAlerts], by simp [processAlerts, hs]⟩
  | cons a rest ih =>
      intro store A ts hs
      by_cases hA : a.id = A
      · have hsup : processOneAlert channels st now a store = ([], store) :=
          processOneAlert_suppressed_of_sent channels st now a store ts (by rw [hA]; exact hs)
        have hr := ih store A ts hs
        constructor
        · intro e he
          simp only [processAlerts, hsup] at he
          simp at he
          exact hr.1 e he
        · simp only [processAlerts, hsup]
          exact hr.2
      · have hp := processOneAlert_preserves_sent channels st now a store A ts hs
        have hr := ih (processOneAlert channels st now a store).2 A ts hp
        constructor
        · intro e he
          simp only [processAlerts, List.mem_append] at he
          rcases he with he | he
          · rw [processOneAlert_events_id channels st now a store e he]
            exact hA
          · exact hr.1 e he
        · simp only [processAlerts]
          exact hr.2

/-! ## C6: dedup idempotence -/

/-- C6: once an alert id A is present in sent_alerts, processing any further
batch produces no channel send invocation carrying A and leaves
sent_alerts[A].sent_at unchanged; and RecordAlert has insert-or-ignore
semantics: a second call with an already-recorded alertId returns the store
unchanged. -/
theorem dedup_idempotent (channels : List String) (alerts : List Alert)
    (st : ProbeState) (now : Int) (store : AlertStore) (A : String) (ts : Int)
    (hs : lookupTime store.sentAlerts A = some ts) :
    (∀ e ∈ (processAlerts channels alerts st now store).1, e.alertId ≠ A) ∧
    lookupTime (processAlerts channels alerts st now store).2.sentAlerts A = some ts ∧
    (∀ (p r : String) (now2 : Int), recordAlert store A p r now2 = store) := by
  have h := processAlerts_no_send_of_sent channels alerts st now store A ts hs
  exact ⟨h.1, h.2, fun p r now2 => by simp [recordAlert, hs]⟩

def c6alert : Alert :=
  { id := "p:r:breach", probeId := sampleProbeId, ruleId := sampleRuleId,
    severity := Severity.warning, title := "Threshold Breached", timestamp := 200 }

def c6store : AlertStore := { sentAlerts := [("p:r:breach", 100)], cooldowns := [] }

/-- Witness for C6 at a concrete input: the alert was recorded at 100 and is
re-emitted at 200. -/
theorem dedup_idempotent_witness :
    lookupTime c6store.sentAlerts c6alert.id = some 100 ∧
    ((∀ e ∈ (processAlerts [sampleChannel] [c6alert] emptyProbeState 200 c6store).1,
        e.alertId ≠ c6alert.id) ∧
     lookupTime (processAlerts [sampleChannel] [c6alert] emptyProbeState 200
         c6store).2.sentAlerts c6alert.id = some 100 ∧
     (∀ (p r : String) (now2 : Int), recordAlert c6store c6alert.id p r now2 = c6store)) :=
  ⟨by decide,
   dedup_idempotent [sampleChannel] [c6alert] emptyProbeState 200 c6store c6alert.id 100
     (by decide)⟩

/-! ## C2: threshold hysteresis -/

/-- Whether the configured comparison holds on a run's fact bag (spec side of
C2; meaningful on runs where coercion succeeds). -/
def thresholdTriggeredOn (cfg : ThresholdConfig) (facts : Facts) : Bool :=
  match coerceNum (lookupKV facts cfg.fact) with
  | none => false
  | some v => cmpEval cfg.operator v cfg.threshold

/-- The alert C2 predicts on an ok -> triggered edge, its id spelled as
"{probeId}:{ruleId}:breach". -/
def breachAlertOf (cfg : ThresholdConfig) (ruleId probeId : String) (now : Int) : Alert :=
  { id := probeId ++ ":" ++ ruleId ++ ":" ++ breachKey,
    probeId := probeId, ruleId := ruleId,
    severity := cfg.severity.getD Severity.warning,
    title := cfg.title.getD ("Threshold Breached"),
    timestamp := now }

/-- Spec-side expected outputs (C2's words): exactly one alert on each
false -> true edge of the comparison, with the previous-comparison flag
threaded (initially false, the default ok); nothing while the comparison
stays true, nothing on a false evaluation. -/
def expectedThresholdOuts (cfg : ThresholdConfig) (ruleId probeId : String) :
    Bool → List (Facts × Int) → List (Option Alert)
  | _, [] => []
  | prev, (f, now) :: rest =>
      (if thresholdTriggeredOn cfg f && !prev then
         some (breachAlertOf cfg ruleId probeId now)
       else none) ::
        expectedThresholdOuts cfg ruleId probeId (thresholdTriggeredOn cfg f) rest

/-- Code-side sequence of evaluations threading the rule-state map. -/
def thresholdRunSeq (cfg : ThresholdConfig) (ruleId probeId : String) :
    List (Facts × Int) → KVMap → List (Option Alert) × KVMap
  | [], m => ([], m)
  | (f, now) :: rest, m =>
      let r := thresholdEvaluate cfg ruleId probeId now f m
      let r2 := thresholdRunSeq cfg ruleId probeId rest r.2
      (r.1 :: r2.1, r2.2)

/-- The slot values reachable for a threshold rule and the boolean they
represent (absent and "ok" mean not triggered). -/
def slotRep : Option FactValue → Bool → Prop
  | none, b => b = false
  | some v, b => (v = okVal ∧ b = false) ∨ (v = triggeredVal ∧ b = true)

theorem thresholdEvaluate_step (cfg : ThresholdConfig) (ruleId probeId : String)
    (now : Int) (f : Facts) (m : KVMap) (prev : Bool)
    (hc : (coerceNum (lookupKV f cfg.fact)).isSome = true)
    (hrep : slotRep (lookupKV m ruleId) prev) :
    (thresholdEvaluate cfg ruleId probeId now f m).1 =
      (if thresholdTriggeredOn cfg f && !prev then
         some (breachAlertOf cfg ruleId probeId now)
       else none) ∧
    slotRep (lookupKV (thresholdEvaluate cfg ruleId probeId now f m).2 ruleId)
      (thresholdTriggeredOn cfg f) := by
  obtain ⟨v, hv⟩ := Option.isSome_iff_exists.mp hc
  have htr : thresholdTriggeredOn cfg f = cmpEval cfg.operator v cfg.threshold := by
    simp [thresholdTriggeredOn, hv]
  have hoo : (okVal == okVal) = true := by decide
  have hto : (triggeredVal == okVal) = false := by decide
  have hsc : (lookupKV m ruleId = none ∧ prev = false) ∨
      (lookupKV m ruleId = some okVal ∧ prev = false) ∨
      (lookupKV m ruleId = some triggeredVal ∧ prev = true) := by
    rcases h : lookupKV m ruleId with _ | w
    · rw [h] at hrep
      exact Or.inl ⟨rfl, hrep⟩
    · rw [h] at hrep
      rcases hrep with ⟨hw, hb⟩ | ⟨hw, hb⟩
      · exact Or.inr (Or.inl ⟨by rw [hw], hb⟩)
      · exact Or.inr (Or.inr ⟨by rw [hw], hb⟩)
  rcases hsc with ⟨hsl, hpv⟩ | ⟨hsl, hpv⟩ | ⟨hsl, hpv⟩ <;> subst hpv <;>
    cases htv : cmpEval cfg.operator v cfg.threshold
  · constructor
    · simp [thresholdEvaluate, hv, hsl, htr, htv]
    · simp [thresholdEvaluate, hv, hsl, htv, htr, lookupKV_setKV, slotRep, okVal]
  · constructor
    · simp [thresholdEvaluate, hv, hsl, htr, htv, hoo, breachAlertOf,
        generateThresholdAlertId, generateAlertId]
    · simp [thresholdEvaluate, hv, hsl, htv, htr, hoo, lookupKV_setKV, slotRep, triggeredVal]
  · constructor
    · simp [thresholdEvaluate, hv, hsl, htr, htv, okVal]
    · simp [thresholdEvaluate, hv, hsl, htv, htr, okVal, lookupKV_setKV, slotRep]
  · constructor
    · simp [thresholdEvaluate, hv, hsl, htr, htv, hoo, okVal, breachAlertOf,
        generateThresholdAlertId, generateAlertId]
    · simp [thresholdEvaluate, hv, hsl, htv, htr, hoo, okVal, lookupKV_setKV, slotRep,
        triggeredVal]
  · constructor
    · simp [thresholdEvaluate, hv, hsl, htr, htv, triggeredVal, okVal]
    · simp [thresholdEvaluate, hv, hsl, htv, htr, triggeredVal, okVal, lookupKV_setKV, slotRep]
  · have hto2 : ¬ (FactValue.vStr ("triggered") = okVal) := by decide
    constructor
    · simp [thresholdEvaluate, hv, hsl, htr, htv, triggeredVal, hto2]
    · simp [thresholdEvaluate, hv, hsl, htv, htr, triggeredVal, hto2, slotRep]

theorem thresholdRunSeq_spec (cfg : ThresholdConfig) (ruleId probeId : String)
    (runs : List (Facts × Int)) :
    ∀ (m : KVMap) (prev : Bool),
    (∀ r ∈ runs, (coerceNum (lookupKV r.1 cfg.fact)).isSome = true) →
    slotRep (lookupKV m ruleId) prev →
    (thresholdRunSeq cfg ruleId probeId runs m).1 =
      expectedThresholdOuts cfg ruleId probeId prev runs := by
  induction runs with
  | nil =>
      intro m prev _ _
      simp [thresholdRunSeq, expectedThresholdOuts]
  | cons rn rest ih =>
      intro m prev hall hrep
      obtain ⟨f, now⟩ := rn
      have hc : (coerceNum (lookupKV f cfg.fact)).isSome = true := hall (f, now) (by simp)
      have hstep := thresholdEvaluate_step cfg ruleId probeId now f m prev hc hrep
      simp only [thresholdRunSeq, expectedThresholdOuts]
      refine congrArg₂ List.cons hstep.1 ?_
      exact ih (thresholdEvaluate cfg ruleId probeId now f m).2 (thresholdTriggeredOn cfg f)
        (fun r hr => hall r (by simp [hr])) hstep.2

/-- C2: for every sequence of evaluations whose fact values coerce
numerically, starting from the default slot (absent = "ok"), the produced
alert stream is exactly the spec's: one alert with id
"{probeId}:{ruleId}:breach" on each ok -> triggered edge of the configured
comparison, and nothing on an evaluation whose comparison was already true
on the previous one; moreover every evaluation on which the comparison is
false clears the slot to "ok". -/
theorem threshold_hysteresis (cfg : ThresholdConfig) (ruleId probeId : String)
    (runs : List (Facts × Int))
    (hall : ∀ r ∈ runs, (coerceNum (lookupKV r.1 cfg.fact)).isSome = true) :
    (thresholdRunSeq cfg ruleId probeId runs []).1 =
      expectedThresholdOuts cfg ruleId probeId false runs ∧
    (∀ (f : Facts) (now : Int) (m : KVMap),
       thresholdTriggeredOn cfg f = false →
       (coerceNum (lookupKV f cfg.fact)).isSome = true →
       lookupKV (thresholdEvaluate cfg ruleId probeId now f m).2 ruleId = some okVal) := by
  constructor
  · exact thresholdRunSeq_spec cfg ruleId probeId runs [] false hall
      (by simp [slotRep, lookupKV])
  · intro f now m htf hc
    obtain ⟨v, hv⟩ := Option.isSome_iff_exists.mp hc
    have hcv : cmpEval cfg.operator v cfg.threshold = false := by
      simp [thresholdTriggeredOn, hv] at htf
      exact htf
    simp [thresholdEvaluate, hv, hcv, lookupKV_setKV]

def c2cfg : ThresholdConfig :=
  { fact := "metric.x", threshold := 15, operator := CmpOp.gt, severity := none, title := none }

def c2runs : List (Facts × Int) :=
  [([("metric.x", FactValue.vInt 10)], 1), ([("metric.x", FactValue.vInt 20)], 2),
   ([("metric.x", FactValue.vInt 30)], 3), ([("metric.x", FactValue.vInt 20)], 4),
   ([("metric.x", FactValue.vInt 10)], 5)]

/-- Witness for C2 at a concrete input: the spec's scenario 1 sequence
10, 20, 30, 20, 10 against x > 15. -/
theorem threshold_hysteresis_witness :
    (∀ r ∈ c2runs, (coerceNum (lookupKV r.1 c2cfg.fact)).isSome = true) ∧
    (thresholdRunSeq c2cfg sampleRuleId sampleProbeId c2runs []).1 =
      expectedThresholdOuts c2cfg sampleRuleId sampleProbeId false c2runs :=
  ⟨by decide,
   (threshold_hysteresis c2cfg sampleRuleId sampleProbeId c2runs (by decide)).1⟩

/-! ## C9: the stuck-probe system alert -/

theorem filter_alertId_eq_nil (l : List SendEvent) (A : String)
    (h : ∀ e ∈ l, e.alertId ≠ A) : l.filter (fun e => e.alertId == A) = [] := by
  induction l with
  | nil => simp
  | cons e rest ih =>
      have he : (e.alertId == A) = false := by
        rcases Bool.eq_false_or_eq_true (e.alertId == A) with ht | hf
        · exact absurd (beq_iff_eq.mp ht) (h e (by simp))
        · exact hf
      simp [List.filter_cons, he]
      intro x hx
      exact h x (by simp [hx])

theorem processOneAlert_preserves_absent (channels : List String) (st : ProbeState)
    (now : Int) (a : Alert) (store : AlertStore) (A : String)
    (hne : ¬ (a.id = A)) (habs : lookupTime store.sentAlerts A = none) :
    lookupTime (processOneAlert channels st now a store).2.sentAlerts A = none := by
  by_cases h1 : isMuted st now
  · simp [processOneAlert, h1, habs]
  · by_cases h2 : isAlertSent store a.id none now
    · simp [processOneAlert, h1, h2, habs]
    · by_cases h3 : isInCooldown store (cooldownKey a) cooldownWindowMs now
      · simp [processOneAlert, h1, h2, h3, habs]
      · simp only [processOneAlert, h1, h2, h3, if_false, if_neg]
        simp [recordCooldown, recordAlert]
        by_cases h4 : (lookupTime store.sentAlerts a.id).isSome
        · simp [h4, habs]
        · simp [h4, lookupTime, beq_iff_eq, hne, habs]

theorem processOneAlert_absent_cases (channels : List String) (st : ProbeState)
    (now : Int) (a : Alert) (store : AlertStore)
    (habs : lookupTime store.sentAlerts a.id = none) :
    processOneAlert channels st now a store = ([], store) ∨
    ((processOneAlert channels st now a store).1 =
        channels.map (fun c => { channel := c, alertId := a.id }) ∧
     lookupTime (processOneAlert channels st now a store).2.sentAlerts a.id = some now) := by
  by_cases h1 : isMuted st now
  · exact Or.inl (by simp [processOneAlert, h1])
  · by_cases h2 : isAlertSent store a.id none now
    · exact Or.inl (by simp [processOneAlert, h1, h2])
    · by_cases h3 : isInCooldown store (cooldownKey a) cooldownWindowMs now
      · exact Or.inl (by simp [processOneAlert, h1, h2, h3])
      · refine Or.inr ⟨by simp [processOneAlert, h1, h2, h3], ?_⟩
        have h4 : (lookupTime store.sentAlerts a.id).isSome = false := by simp [habs]
        simp [processOneAlert, h1, h2, h3, recordCooldown, recordAlert, h4, lookupTime,
          beq_self_eq_true]

theorem processAlerts_absent_once (channels : List String) (alerts : List Alert)
    (st : ProbeState) (now : Int) :
    ∀ (store : AlertStore) (A : String),
    lookupTime store.sentAlerts A = none →
    (((processAlerts channels alerts st now store).1.filter (fun e => e.alertId == A) = [] ∧
      lookupTime (processAlerts channels alerts st now store).2.sentAlerts A = none) ∨
     ((processAlerts channels alerts st now store).1.filter (fun e => e.alertId == A) =
        channels.map (fun c => { channel := c, alertId := A }) ∧
      ∃ ts, lookupTime (processAlerts channels alerts st now store).2.sentAlerts A = some ts)) := by
  induction alerts with
  | nil =>
      intro store A habs
      exact Or.inl ⟨by simp [processAlerts], by simp [processAlerts, habs]⟩
  | cons a rest ih =>
      intro store A habs
      by_cases hA : a.id = A
      · subst hA
        rcases processOneAlert_absent_cases channels st now a store habs with hsup | ⟨hev, hrec⟩
        · rcases ih store a.id habs with ⟨hf, hn⟩ | ⟨hf, hts⟩
          · refine Or.inl ⟨?_, ?_⟩
            · simp only [processAlerts, hsup]
              simpa using hf
            · simp only [processAlerts, hsup]
              exact hn
          · refine Or.inr ⟨?_, ?_⟩
            · simp only [processAlerts, hsup]
              simpa using hf
            · simp only [processAlerts, hsup]
              exact hts
        · have hrest := processAlerts_no_send_of_sent channels rest st now
            (processOneAlert channels st now a store).2 a.id now hrec
          refine Or.inr ⟨?_, ⟨now, ?_⟩⟩
          · simp only [processAlerts, List.filter_append]
            rw [hev, filter_alertId_eq_nil _ _ hrest.1, List.append_nil]
            apply List.filter_eq_self.mpr
            intro e he
            simp only [List.mem_map] at he
            obtain ⟨c, _, rfl⟩ := he
            simp
          · simp only [processAlerts]
            exact hrest.2
      · have habs2 := processOneAlert_preserves_absent channels st now a store A hA habs
        have hhead : ((processOneAlert channels st now a store).1.filter
            (fun e => e.alertId == A)) = [] :=
          filter_alertId_eq_nil _ _ (fun e he => by
            rw [processOneAlert_events_id channels st now a store e he]
            exact hA)
        rcases ih (processOneAlert channels st now a store).2 A habs2 with ⟨hf, hn⟩ | ⟨hf, hts⟩
        · refine Or.inl ⟨?_, ?_⟩
          · simp only [processAlerts, List.filter_append]
            rw [hhead, hf]
            rfl
          · simp only [processAlerts]
            exact hn
        · refine Or.inr ⟨?_, ?_⟩
          · simp only [processAlerts, List.filter_append]
            rw [hhead, hf]
            rfl
          · simp only [processAlerts]
            exact hts

theorem pipelineTrace_once (channels : List String)
    (tr : List (List Alert × ProbeState × Int)) :
    ∀ (store : AlertStore) (A : String),
    (∀ ts, lookupTime store.sentAlerts A = some ts →
       (pipelineTrace channels tr store).1.filter (fun e => e.alertId == A) = [] ∧
       lookupTime (pipelineTrace channels tr store).2.sentAlerts A = some ts) ∧
    (lookupTime store.sentAlerts A = none →
       (pipelineTrace channels tr store).1.filter (fun e => e.alertId == A) = [] ∨
       (pipelineTrace channels tr store).1.filter (fun e => e.alertId == A) =
         channels.map (fun c => { channel := c, alertId := A })) := by
  induction tr with
  | nil =>
      intro store A
      constructor
      · intro ts hs
        exact ⟨by simp [pipelineTrace], by simp [pipelineTrace, hs]⟩
      · intro _
        exact Or.inl (by simp [pipelineTrace])
  | cons c rest ih =>
      intro store A
      constructor
      · intro ts hs
        have hb := processAlerts_no_send_of_sent channels c.1 c.2.1 c.2.2 store A ts hs
        have hr := (ih (processAlerts channels c.1 c.2.1 c.2.2 store).2 A).1 ts hb.2
        constructor
        · simp only [pipelineTrace, List.filter_append]
          rw [filter_alertId_eq_nil _ _ hb.1, hr.1]
          rfl
        · simp only [pipelineTrace]
          exact hr.2
      · intro habs
        rcases processAlerts_absent_once channels c.1 c.2.1 c.2.2 store A habs with
          ⟨hf, hn⟩ | ⟨hf, hts⟩
        · rcases (ih (processAlerts channels c.1 c.2.1 c.2.2 store).2 A).2 hn with h | h
          · refine Or.inl ?_
            simp only [pipelineTrace, List.filter_append]
            rw [hf, h]
            rfl
          · refine Or.inr ?_
            simp only [pipelineTrace, List.filter_append]
            rw [hf, h]
            rfl
        · obtain ⟨ts, hts⟩ := hts
          have hr := (ih (processAlerts channels c.1 c.2.1 c.2.2 store).2 A).1 ts hts
          refine Or.inr ?_
          simp only [pipelineTrace, List.filter_append]
          rw [hf, hr.1, List.append_nil]

/-- C9: the watchdog always synthesizes the constant alert id
"{probeId}:system:stuck" (routed with the empty probe state), and because the
dedup stage consults the permanent sent_alerts table with no TTL, over any
sequence of pipeline invocations starting from a store in which that id is
not yet recorded, the send log carries at most one fan-out of the stuck
alert: the sends with that id are empty or exactly one per registered
channel. -/
theorem stuck_alert_delivered_at_most_once (channels : List String)
    (tr : List (List Alert × ProbeState × Int)) (store0 : AlertStore) (probeId : String)
    (h0 : lookupTime store0.sentAlerts (stuckAlertId probeId) = none) :
    (∀ (locks : LockMap) (timeout now lt : Int),
       lookupTime locks probeId = some lt → now - lt > timeout * 2 →
       gateAndAcquire locks probeId timeout now =
         some (some (stuckAlert probeId now), setLock (eraseLock locks probeId) probeId now) ∧
       (stuckAlert probeId now).id = stuckAlertId probeId) ∧
    ((pipelineTrace channels tr store0).1.filter
        (fun e => e.alertId == stuckAlertId probeId) = [] ∨
     (pipelineTrace channels tr store0).1.filter
        (fun e => e.alertId == stuckAlertId probeId) =
       channels.map (fun c => { channel := c, alertId := stuckAlertId probeId })) := by
  constructor
  · intro locks timeout now lt hl hage
    refine ⟨?_, rfl⟩
    simp [gateAndAcquire, hl, hage]
  · exact (pipelineTrace_once channels tr store0 (stuckAlertId probeId)).2 h0

def c9tr : List (List Alert × ProbeState × Int) :=
  [([stuckAlert sampleProbeId 100], emptyProbeState, 100),
   ([stuckAlert sampleProbeId 200], emptyProbeState, 200)]

/-- Witness for C9 at a concrete input: two watchdog firings for the same
probe against an initially empty store. -/
theorem stuck_alert_delivered_at_most_once_witness :
    lookupTime emptyStore.sentAlerts (stuckAlertId sampleProbeId) = none ∧
    ((pipelineTrace [sampleChannel] c9tr emptyStore).1.filter
        (fun e => e.alertId == stuckAlertId sampleProbeId) = [] ∨
     (pipelineTrace [sampleChannel] c9tr emptyStore).1.filter
        (fun e => e.alertId == stuckAlertId sampleProbeId) =
       [sampleChannel].map (fun c => { channel := c, alertId := stuckAlertId sampleProbeId })) :=
  ⟨by decide,
   (stuck_alert_delivered_at_most_once [sampleChannel] c9tr emptyStore sampleProbeId
      (by decide)).2⟩

/-- Witness for the amended C7 at a concrete input: a single armed timer. -/
theorem enable_disable_idempotent_witness :
    enableProbe { runningProbes := [sampleProbeId] } sampleProbeId =
      { runningProbes := [sampleProbeId] } ∧
    sampleProbeId ∉
      (disableProbe { runningProbes := [sampleProbeId] } sampleProbeId).runningProbes ∧
    disableProbe (disableProbe { runningProbes := [sampleProbeId] } sampleProbeId)
        sampleProbeId =
      disableProbe { runningProbes := [sampleProbeId] } sampleProbeId ∧
    enableProbe (enableProbe { runningProbes := [sampleProbeId] } sampleProbeId)
        sampleProbeId =
      enableProbe { runningProbes := [sampleProbeId] } sampleProbeId :=
  enable_disable_idempotent { runningProbes := [sampleProbeId] } sampleProbeId
